import Mathlib

/-!
Shallow embedding of the user-center service of the XiaoHangProject
repository: the Prisma-backed data model (users, sessions, login-audit
logs), the UserModel operations (createUser, login, updateUser,
deleteUser, logout) and the Express route handlers that the claims are
about (register, login, admin update, change-password), together with the
JWT authentication middleware.  Machine time is modelled in seconds as a
natural number; the bcrypt primitive and the jwt signing primitive are
passed in as function parameters, concrete demo instances are provided
for evaluation.
-/

namespace XiaoHang

/-- Time units that jsonwebtoken accepts in the JWT_EXPIRES_IN
configuration string (for instance "24h"). -/
inductive TimeUnit
  | seconds
  | minutes
  | hours
  | days
deriving DecidableEq, Repr

/-- Seconds in one unit. -/
def TimeUnit.toSeconds : TimeUnit → Nat
  | .seconds => 1
  | .minutes => 60
  | .hours => 3600
  | .days => 86400

/-- The JWT_EXPIRES_IN configuration value: a numeric value and a unit. -/
structure JwtExpiresIn where
  value : Nat
  unit : TimeUnit
deriving DecidableEq, Repr

/-- The time-to-live in seconds that jwt.sign encodes into the token:
jsonwebtoken honours the unit of the configuration string. -/
def tokenTtlSeconds (e : JwtExpiresIn) : Nat := e.value * e.unit.toSeconds

/-- The time-to-live in seconds of the persisted session row: login takes
the first numeric run of JWT_EXPIRES_IN (match with a digit regex) and
adds it with setHours, so the number is always treated as hours,
whatever unit the configuration string declares. -/
def sessionTtlSeconds (e : JwtExpiresIn) : Nat := e.value * 3600

/-- A row of the user table. -/
structure User where
  id : Nat
  username : String
  email : String
  passwordHash : String
  nickname : String
  avatar : Option String := none
  role : String := "user"
  status : String := "active"
  disabledRemark : Option String := none
  source : String := "unknown"
  lastLoginAt : Option Nat := none
deriving DecidableEq, Repr

/-- A row of the userSession table. -/
structure Session where
  userId : Nat
  token : String
  expiresAt : Nat
  ipAddress : Option String := none
  userAgent : Option String := none
  deviceId : Option String := none
deriving DecidableEq, Repr

/-- A row of the userLoginLog table. -/
structure LoginLog where
  userId : Option Nat
  username : String
  ipAddress : Option String
  userAgent : Option String
  success : Bool
  message : String
deriving DecidableEq, Repr

/-- The relational store behind the Prisma client. -/
structure Store where
  users : List User := []
  sessions : List Session := []
  loginLogs : List LoginLog := []
deriving DecidableEq, Repr

/-- The payload jwt.sign places in the token, plus the expiry that
jsonwebtoken derives from the expiresIn option. -/
structure Claims where
  userId : Nat
  username : String
  role : String
  exp : Nat
deriving DecidableEq, Repr

/-- The identity projection returned by login and by the middleware
(select id, username, email, nickname, avatar, role, status). -/
structure UserInfo where
  id : Nat
  username : String
  email : String
  nickname : String
  avatar : Option String
  role : String
  status : String
deriving DecidableEq, Repr

/-- Client information captured at login time. -/
structure LoginInfo where
  ipAddress : Option String := none
  userAgent : Option String := none
  deviceId : Option String := none
deriving DecidableEq, Repr

def msgInvalidCredentials : String := "用户名或密码错误"

def msgAccountDisabled : String := "用户已被禁用"

def msgUserNotFound : String := "用户不存在"

def msgUsernameTaken : String := "用户名已存在"

def msgEmailTaken : String := "邮箱已被注册"

def msgUserInactive : String := "用户不存在或已被禁用"

def msgSessionInvalid : String := "会话已过期或无效"

def msgWrongPassword : String := "密码错误"

def msgLoginOk : String := "登录成功"

def msgBlockNeedsRemark : String := "禁用用户时必须添加备注"

def msgEmptyUpdate : String := "请提供要更新的字段"

def userInfoOf (u : User) : UserInfo :=
  ⟨u.id, u.username, u.email, u.nickname, u.avatar, u.role, u.status⟩

/-- findFirst with an OR filter on username and email: the single login
field may carry either one. -/
def findUserByLogin (store : Store) (uname : String) : Option User :=
  store.users.find? (fun u => u.username == uname || u.email == uname)

/-- findUnique on the user id. -/
def findUserById (store : Store) (uid : Nat) : Option User :=
  store.users.find? (fun u => u.id == uid)

/-- saveLoginLog: appends an audit row.  (In the source a write failure is
swallowed; the store-level append itself is modelled.) -/
def saveLoginLog (store : Store) (userId : Option Nat) (uname : String)
    (info : LoginInfo) (success : Bool) (message : String) : Store :=
  { store with loginLogs :=
      store.loginLogs ++ [⟨userId, uname, info.ipAddress, info.userAgent, success, message⟩] }

/-- The claims login signs into the token: userId, username, role and the
expiry derived from the configured expiresIn. -/
def claimsFor (u : User) (now : Nat) (cfg : JwtExpiresIn) : Claims :=
  ⟨u.id, u.username, u.role, now + tokenTtlSeconds cfg⟩

/-- UserModel.login: resolve the user by username or email, reject a
non-active account, compare the password, then create a session row,
stamp lastLoginAt, append a success audit row and return the identity
projection together with the signed token. -/
def login (compare : String → String → Bool) (sign : Claims → String)
    (cfg : JwtExpiresIn) (store : Store) (now : Nat)
    (uname password : String) (info : LoginInfo) :
    Except String (UserInfo × String) × Store :=
  match findUserByLogin store uname with
  | none =>
      (Except.error msgInvalidCredentials,
        saveLoginLog store none uname info false msgUserNotFound)
  | some u =>
      if u.status ≠ "active" then
        (Except.error msgAccountDisabled,
          saveLoginLog store (some u.id) uname info false msgAccountDisabled)
      else if compare password u.passwordHash = false then
        (Except.error msgInvalidCredentials,
          saveLoginLog store (some u.id) uname info false msgWrongPassword)
      else
        let token := sign (claimsFor u now cfg)
        let sess : Session :=
          ⟨u.id, token, now + sessionTtlSeconds cfg,
            info.ipAddress, info.userAgent, info.deviceId⟩
        let store1 : Store := { store with sessions := store.sessions ++ [sess] }
        let store2 : Store :=
          { store1 with users :=
              store1.users.map fun v =>
                if v.id = u.id then { v with lastLoginAt := some now } else v }
        (Except.ok (userInfoOf u, token),
          saveLoginLog store2 (some u.id) uname info true msgLoginOk)

/-- Outcome of the JWT middleware (messages abstracted to tags). -/
inductive AuthResult
  | invalidJwt
  | expiredJwt
  | userInactive
  | sessionRevoked
  | ok (ident : UserInfo)
deriving DecidableEq, Repr

/-- The session query of the middleware: a row whose userId and token
match and whose expiresAt is strictly in the future. -/
def validSessionQuery (store : Store) (uid : Nat) (token : String) (now : Nat) :
    Option Session :=
  store.sessions.find?
    (fun s => s.userId == uid && s.token == token && decide (now < s.expiresAt))

/-- The body of authJWT after jwt.verify succeeded: the middleware first
fetches the user by the decoded id and rejects an absent or non-active
user, and only then looks the session row up. -/
def authCheck (store : Store) (now : Nat) (token : String) (decodedUserId : Nat) :
    AuthResult :=
  match findUserById store decodedUserId with
  | none => .userInactive
  | some u =>
      if u.status ≠ "active" then .userInactive
      else
        match validSessionQuery store u.id token now with
        | none => .sessionRevoked
        | some _ => .ok (userInfoOf u)

/-- authJWT with stage 1 made explicit: decode (signature check) and the
claim-encoded expiry, then the store checks of authCheck. -/
def authJWTverified (decode : String → Option Claims) (store : Store) (now : Nat)
    (token : String) : AuthResult :=
  match decode token with
  | none => .invalidJwt
  | some c => if c.exp ≤ now then .expiredJwt else authCheck store now token c.userId

/-- UserModel.logout: deletes one session (token given) or every session
of the user (token omitted). -/
def logout (store : Store) (uid : Nat) (token : Option String) : Store :=
  match token with
  | some t =>
      { store with sessions :=
          store.sessions.filter (fun s => !(s.userId == uid && s.token == t)) }
  | none =>
      { store with sessions := store.sessions.filter (fun s => s.userId != uid) }

/-- Demo password hasher standing in for bcrypt in concrete evaluations. -/
def hashDemo (p : String) : String := "hash:" ++ p

/-- Demo bcrypt.compare matching hashDemo. -/
def compareDemo (p h : String) : Bool := h == hashDemo p

/-- Demo token signer standing in for jwt.sign in concrete evaluations. -/
def signDemo (c : Claims) : String :=
  "tok." ++ toString c.userId ++ "." ++ c.username ++ "." ++ c.role ++ "." ++ toString c.exp

/-- Demo configuration: JWT_EXPIRES_IN of 24 hours, as in the shipped env file. -/
def cfgDemo : JwtExpiresIn := ⟨24, TimeUnit.hours⟩

/-- Demo client info. -/
def infoDemo : LoginInfo := {}

/-- Registration payload (POST /auth/register body). -/
structure RegisterData where
  username : String
  email : String
  password : String
  nickname : Option String := none
  source : Option String := none
deriving DecidableEq, Repr

/-- UserModel.createUser: one findFirst over both unique fields, a
distinguishable duplicate-key error naming the colliding field, then the
insert with the documented defaults.  newId stands for the
autoincrement id the database would assign. -/
def createUser (hash : String → String) (store : Store) (d : RegisterData)
    (newId : Nat) : Except String User × Store :=
  let fresh : User :=
    { id := newId, username := d.username, email := d.email,
      passwordHash := hash d.password, nickname := d.nickname.getD d.username,
      avatar := none, role := "user", status := "active",
      disabledRemark := none, source := d.source.getD "unknown", lastLoginAt := none }
  match store.users.find? (fun u => u.username == d.username || u.email == d.email) with
  | some ex =>
      if ex.username = d.username then (Except.error msgUsernameTaken, store)
      else if ex.email = d.email then (Except.error msgEmailTaken, store)
      else (Except.ok fresh, { store with users := store.users ++ [fresh] })
  | none => (Except.ok fresh, { store with users := store.users ++ [fresh] })

/-- Outcome of the register route.  The catch block of the handler
executes res.status(400).json(user), but the const user binding is
scoped to the try block, so any createUser error makes the handler
raise a ReferenceError instead of producing a response body: that path
is modelled as crashReferenceError. -/
inductive RegisterOutcome
  | badRequest (message : String)
  | created (u : User)
  | crashReferenceError
deriving DecidableEq, Repr

/-- POST /auth/register: required-field and password-length validation,
then createUser; success answers 201 with the created row. -/
def registerRoute (hash : String → String) (store : Store)
    (username email password : String) (nickname source : Option String)
    (newId : Nat) : RegisterOutcome × Store :=
  if username = "" ∨ email = "" ∨ password = "" then
    (.badRequest "用户名、邮箱和密码为必填项", store)
  else if password.length < 6 then
    (.badRequest "密码长度不能少于6位", store)
  else
    match createUser hash store ⟨username, email, password, nickname, source⟩ newId with
    | (Except.ok u, st) => (.created u, st)
    | (Except.error _, st) => (.crashReferenceError, st)

/-- Partial update handed to UserModel.updateUser.  disabledRemark is an
option of an option: outer none means the field is absent, some none
means it is explicitly set to null. -/
structure UpdateData where
  username : Option String := none
  email : Option String := none
  nickname : Option String := none
  avatar : Option String := none
  role : Option String := none
  status : Option String := none
  disabledRemark : Option (Option String) := none
  password : Option String := none
deriving DecidableEq, Repr

/-- Object.keys(updateData).length equal to zero. -/
def UpdateData.isEmpty (d : UpdateData) : Bool :=
  d.username.isNone && d.email.isNone && d.nickname.isNone && d.avatar.isNone &&
  d.role.isNone && d.status.isNone && d.disabledRemark.isNone && d.password.isNone

/-- JS truthiness of an optional string field (undefined and the empty
string are falsy). -/
def truthyStr : Option String → Bool
  | none => false
  | some s => !(s == "")

/-- JS falsiness of an optional string field. -/
def falsyStr : Option String → Bool
  | none => true
  | some s => s == ""

/-- Applying the assembled update to the stored row; a supplied password
is hashed into passwordHash (callers guard against an empty password,
matching the routes). -/
def applyUpdate (hash : String → String) (u : User) (d : UpdateData) : User :=
  { u with
    username := d.username.getD u.username,
    email := d.email.getD u.email,
    nickname := d.nickname.getD u.nickname,
    avatar := match d.avatar with | none => u.avatar | some a => some a,
    role := d.role.getD u.role,
    status := d.status.getD u.status,
    disabledRemark := match d.disabledRemark with | none => u.disabledRemark | some r => r,
    passwordHash := match d.password with | none => u.passwordHash | some p => hash p }

/-- One OR branch of the uniqueness re-check in updateUser.  An absent
field yields an empty Prisma filter, which matches every row — the
filter(Boolean) in the source does not remove object literals whose
value is undefined. -/
def prismaFieldMatch (field : Option String) (actual : String) : Bool :=
  match field with
  | none => true
  | some s => actual == s

/-- The prisma.user.update step of UserModel.updateUser.  An absent id
makes Prisma raise its record-not-found error. -/
def updateUserApply (hash : String → String) (store : Store) (uid : Nat)
    (d : UpdateData) : Except String User × Store :=
  match findUserById store uid with
  | none => (Except.error "要更新的记录不存在", store)
  | some u =>
      let u' := applyUpdate hash u d
      (Except.ok u',
        { store with users := store.users.map fun v => if v.id = uid then u' else v })

/-- UserModel.updateUser: if username or email is supplied, re-check
uniqueness excluding the current record, then update. -/
def updateUser (hash : String → String) (store : Store) (uid : Nat)
    (d : UpdateData) : Except String User × Store :=
  if truthyStr d.username || truthyStr d.email then
    match store.users.find? (fun v => v.id != uid &&
        (prismaFieldMatch d.username v.username || prismaFieldMatch d.email v.email)) with
    | some ex =>
        if d.username = some ex.username then (Except.error msgUsernameTaken, store)
        else if d.email = some ex.email then (Except.error msgEmailTaken, store)
        else updateUserApply hash store uid d
    | none => updateUserApply hash store uid d
  else updateUserApply hash store uid d

/-- Outcome of the admin update route. -/
inductive UpdateOutcome
  | badRequest (message : String)
  | forbidden (message : String)
  | notFound
  | updated (u : User)
deriving DecidableEq, Repr

/-- Body of PUT /users/:id. -/
structure AdminUpdateBody where
  username : Option String := none
  email : Option String := none
  nickname : Option String := none
  avatar : Option String := none
  role : Option String := none
  status : Option String := none
  disabledRemark : Option String := none
deriving DecidableEq, Repr

/-- The empty-check plus updateUser tail of the admin update handler;
updateUser errors surface as 400 with the error message. -/
def adminFinish (hash : String → String) (store : Store) (uid : Nat)
    (d : UpdateData) : UpdateOutcome × Store :=
  if d.isEmpty then (.badRequest msgEmptyUpdate, store)
  else
    match updateUser hash store uid d with
    | (Except.ok u', st) => (.updated u', st)
    | (Except.error m, st) => (.badRequest m, st)

/-- The updateData object assembled from the supplied body fields of
PUT /users/:id. -/
def adminBodyData (b : AdminUpdateBody) : UpdateData :=
  { username := b.username, email := b.email, nickname := b.nickname,
    avatar := b.avatar, role := b.role, status := b.status,
    disabledRemark := b.disabledRemark.map (fun s => some s), password := none }

/-- The core of PUT /users/:id after the role guard: assemble updateData
from the supplied fields, reject blocked-without-remark, and — whenever
the supplied status is not the string blocked (including an absent
status) and no remark is supplied — fetch the current row and schedule
the remark to be cleared if one is present. -/
def adminUpdateCore (hash : String → String) (store : Store) (uid : Nat)
    (b : AdminUpdateBody) : UpdateOutcome × Store :=
  if b.status = some "blocked" ∧ falsyStr b.disabledRemark = true then
    (.badRequest msgBlockNeedsRemark, store)
  else
    if ¬ b.status = some "blocked" ∧ b.disabledRemark = none then
      match findUserById store uid with
      | none => (.notFound, store)
      | some cur =>
          if truthyStr cur.disabledRemark = true then
            adminFinish hash store uid { adminBodyData b with disabledRemark := some none }
          else
            adminFinish hash store uid (adminBodyData b)
    else
      adminFinish hash store uid (adminBodyData b)

/-- PUT /users/:id: an admin caller may not touch a superadmin target;
then the update core. -/
def adminUpdateUser (hash : String → String) (store : Store) (callerRole : String)
    (uid : Nat) (b : AdminUpdateBody) : UpdateOutcome × Store :=
  if callerRole = "admin" then
    match findUserById store uid with
    | none => (.notFound, store)
    | some t =>
        if t.role = "superadmin" then
          (.forbidden "权限不足，无法修改超级管理员信息", store)
        else adminUpdateCore hash store uid b
  else adminUpdateCore hash store uid b

/-- Outcome of the change-password route. -/
inductive ChangePwOutcome
  | badRequest (message : String)
  | success
deriving DecidableEq, Repr

/-- The verification step of change-password: the handler verifies the
current password by running the full login flow with the caller's
username. -/
def changePwVerify (compare : String → String → Bool) (sign : Claims → String)
    (cfg : JwtExpiresIn) (store : Store) (now : Nat) (u : User)
    (currentPassword : String) (info : LoginInfo) :
    Except String (UserInfo × String) × Store :=
  login compare sign cfg store now u.username currentPassword info

/-- PUT /users/change-password: validation, verification via login, then
the hash update and the revocation of every session of the caller. -/
def changePasswordRoute (compare : String → String → Bool) (hash : String → String)
    (sign : Claims → String) (cfg : JwtExpiresIn) (store : Store) (now : Nat)
    (callerId : Nat) (currentPassword newPassword : String) (info : LoginInfo) :
    ChangePwOutcome × Store :=
  if currentPassword = "" ∨ newPassword = "" then
    (.badRequest "请提供当前密码和新密码", store)
  else if newPassword.length < 6 then
    (.badRequest "新密码长度不能少于6位", store)
  else
    match findUserById store callerId with
    | none => (.badRequest "当前密码错误", store)
    | some u =>
        match changePwVerify compare sign cfg store now u currentPassword info with
        | (Except.error _, st1) => (.badRequest "当前密码错误", st1)
        | (Except.ok _, st1) =>
            match updateUser hash st1 callerId { password := some newPassword } with
            | (Except.error m, st2) => (.badRequest m, st2)
            | (Except.ok _, st2) => (.success, logout st2 callerId none)

/-- UserModel.deleteUser: existence check, then one transaction deleting
the user's sessions, the user's audit rows and the user row; the
transaction is modelled as a single simultaneous store update. -/
def deleteUser (store : Store) (uid : Nat) : Except String User × Store :=
  match findUserById store uid with
  | none => (Except.error msgUserNotFound, store)
  | some u =>
      (Except.ok u,
        { store with
          sessions := store.sessions.filter (fun s => s.userId != uid),
          loginLogs := store.loginLogs.filter (fun l => l.userId != some uid),
          users := store.users.filter (fun v => v.id != uid) })

/-- Result of the login route: transport status, envelope code and
message on failure; the success body carries the identity and token. -/
inductive LoginRouteResult
  | fail (status code : Nat) (message : String)
  | success (info : UserInfo) (token : String)
deriving DecidableEq, Repr

/-- POST /auth/login: missing credentials answer transport 400; any error
thrown by UserModel.login is answered with transport 200 and an envelope
code of 401 carrying the error message. -/
def loginRoute (compare : String → String → Bool) (sign : Claims → String)
    (cfg : JwtExpiresIn) (store : Store) (now : Nat)
    (uname password : String) (info : LoginInfo) : LoginRouteResult × Store :=
  if uname = "" ∨ password = "" then
    (.fail 400 400 "用户名和密码为必填项", store)
  else
    match login compare sign cfg store now uname password info with
    | (Except.ok (ui, tok), st) => (.success ui tok, st)
    | (Except.error m, st) => (.fail 200 401 m, st)

/-- The store produced by a successful login: session appended, the
user's lastLoginAt stamped, a success audit row appended. -/
def loginSuccessStore (sign : Claims → String) (cfg : JwtExpiresIn) (store : Store)
    (now : Nat) (uname : String) (info : LoginInfo) (u : User) : Store :=
  saveLoginLog
    { store with
      sessions := store.sessions ++
        [⟨u.id, sign (claimsFor u now cfg), now + sessionTtlSeconds cfg,
          info.ipAddress, info.userAgent, info.deviceId⟩],
      users := store.users.map fun v =>
        if v.id = u.id then { v with lastLoginAt := some now } else v }
    (some u.id) uname info true msgLoginOk

def c1user : User :=
  { id := 1, username := "alice", email := "alice@x.com",
    passwordHash := "hash:pw", nickname := "alice", status := "inactive" }

def c1store : Store := { users := [c1user] }

def c1decode : String → Option Claims :=
  fun t => if t = "tokA" then some ⟨1, "alice", "user", 1000⟩ else none

def c2user : User :=
  { id := 1, username := "alice", email := "alice@x.com",
    passwordHash := hashDemo "pw1", nickname := "alice" }

def c2store : Store := { users := [c2user] }

def c3user : User :=
  { id := 2, username := "bob", email := "bob@x.com",
    passwordHash := hashDemo "right", nickname := "bob",
    status := "blocked", disabledRemark := some "spam" }

def c3store : Store := { users := [c3user] }

def c4user : User :=
  { id := 4, username := "alice", email := "alice4@x.com",
    passwordHash := hashDemo "pw4", nickname := "alice" }

def c4store : Store := { users := [c4user] }

def cfg5 : JwtExpiresIn := ⟨30, TimeUnit.minutes⟩

def c5user : User :=
  { id := 3, username := "carol", email := "carol@x.com",
    passwordHash := hashDemo "pw", nickname := "carol" }

def c5store : Store := { users := [c5user] }

def c6user : User :=
  { id := 7, username := "dave", email := "dave@x.com",
    passwordHash := hashDemo "pw", nickname := "old",
    status := "blocked", disabledRemark := some "violated terms",
    source := "admin-created" }

def c6store : Store := { users := [c6user] }

def c6body : AdminUpdateBody := { nickname := some "new" }

def c6expected : User := { c6user with nickname := "new", disabledRemark := none }

def storeEmpty : Store := ⟨[], [], []⟩

def c7store1 : Store :=
  (registerRoute hashDemo storeEmpty "alice" "alice@x.com" "secret1" none none 1).2

def c8user : User :=
  { id := 1, username := "erin", email := "erin@x.com",
    passwordHash := hashDemo "pw", nickname := "erin" }

def c8store : Store :=
  { users := [c8user],
    sessions := [⟨1, "t1", 100, none, none, none⟩, ⟨2, "t2", 100, none, none, none⟩],
    loginLogs := [⟨some 1, "erin", none, none, true, msgLoginOk⟩] }

def c10user : User :=
  { id := 1, username := "frank", email := "frank@x.com",
    passwordHash := hashDemo "pw", nickname := "frank" }

def c10store : Store :=
  { users := [c10user], sessions := [⟨1, "tokA", 200, none, none, none⟩] }

/-! Helper lemmas and the claim theorems. -/

theorem findUserById_id (store : Store) (uid : Nat) (u : User)
    (h : findUserById store uid = some u) : u.id = uid := by
  unfold findUserById at h
  have hp := List.find?_some h
  simpa using hp

theorem find?_map_eq {α : Type} (p : α → Bool) (f : α → α)
    (hpf : ∀ x, p (f x) = p x) (l : List α) :
    (l.map f).find? p = (l.find? p).map f := by
  induction l with
  | nil => rfl
  | cons a t ih =>
      by_cases h : p a = true
      · simp [List.find?_cons, hpf, h]
      · have h' : p a = false := by simpa using h
        simp [List.find?_cons, hpf, h', ih]

theorem filter_userId_ne_then_eq_nil (l : List Session) (uid : Nat) :
    ((l.filter fun s => s.userId != uid).filter fun s => s.userId == uid) = [] := by
  induction l with
  | nil => rfl
  | cons a t ih =>
      by_cases h : a.userId = uid
      · simp [List.filter_cons, h, ih]
      · simp [List.filter_cons, h, ih]

theorem login_nouser_eq (compare : String → String → Bool) (sign : Claims → String)
    (cfg : JwtExpiresIn) (store : Store) (now : Nat) (uname password : String)
    (info : LoginInfo)
    (hu : findUserByLogin store uname = none) :
    login compare sign cfg store now uname password info
      = (Except.error msgInvalidCredentials,
          saveLoginLog store none uname info false msgUserNotFound) := by
  unfold login
  rw [hu]

theorem login_disabled_eq (compare : String → String → Bool) (sign : Claims → String)
    (cfg : JwtExpiresIn) (store : Store) (now : Nat) (uname password : String)
    (info : LoginInfo) (u : User)
    (hu : findUserByLogin store uname = some u)
    (hs : u.status ≠ "active") :
    login compare sign cfg store now uname password info
      = (Except.error msgAccountDisabled,
          saveLoginLog store (some u.id) uname info false msgAccountDisabled) := by
  unfold login
  rw [hu]
  simp only [if_pos hs]

theorem login_wrongpw_eq (compare : String → String → Bool) (sign : Claims → String)
    (cfg : JwtExpiresIn) (store : Store) (now : Nat) (uname password : String)
    (info : LoginInfo) (u : User)
    (hu : findUserByLogin store uname = some u)
    (hact : u.status = "active")
    (hpw : compare password u.passwordHash = false) :
    login compare sign cfg store now uname password info
      = (Except.error msgInvalidCredentials,
          saveLoginLog store (some u.id) uname info false msgWrongPassword) := by
  unfold login
  rw [hu]
  simp only [hact, ne_eq, not_true_eq_false, if_false, hpw, if_true]

theorem login_success_eq (compare : String → String → Bool) (sign : Claims → String)
    (cfg : JwtExpiresIn) (store : Store) (now : Nat) (uname password : String)
    (info : LoginInfo) (u : User)
    (hu : findUserByLogin store uname = some u)
    (hact : u.status = "active")
    (hpw : compare password u.passwordHash = true) :
    login compare sign cfg store now uname password info
      = (Except.ok (userInfoOf u, sign (claimsFor u now cfg)),
         loginSuccessStore sign cfg store now uname info u) := by
  unfold login loginSuccessStore
  rw [hu]
  simp only [hact, ne_eq, not_true_eq_false, if_false, hpw]
  rfl

end XiaoHang

namespace XiaoHang

/-- Claim C1, counterexample: a token whose signature verifies and whose
encoded expiry has not passed, presented while no session row for it
exists and the owning user is inactive, is rejected with the
user-inactive answer, not the session-revoked answer the claim
predicts — the middleware re-fetches the user before the session
lookup. -/
theorem c1_counterexample :
    authJWTverified c1decode c1store 100 "tokA" = AuthResult.userInactive ∧
    c1store.sessions = [] ∧
    AuthResult.userInactive ≠ AuthResult.sessionRevoked :=
  ⟨rfl, rfl, by decide⟩

/-- Claim C1, amended: validate re-fetches the owning user before the
session-row lookup.  If the owning user is absent or not active the
check fails with UserInactive even when no unexpired session row with
the token exists; in particular a token whose session was revoked and
whose owning user is simultaneously inactive fails with UserInactive,
not SessionRevoked. -/
theorem c1_amended (store : Store) (now : Nat) (token : String) (uid : Nat) (u : User)
    (hu : findUserById store uid = some u)
    (hs : u.status ≠ "active")
    (hnosess : validSessionQuery store uid token now = none) :
    authCheck store now token uid = AuthResult.userInactive := by
  unfold authCheck
  rw [hu]
  simp only [if_pos hs]

/-- Claim C1, witness: the amended theorem applied to a concrete store
holding one inactive user and no sessions. -/
theorem c1_amended_witness :
    authCheck c1store 100 "tokA" 1 = AuthResult.userInactive :=
  c1_amended c1store 100 "tokA" 1 c1user rfl (by decide) rfl

/-- Claim C2, counterexample: with a correct current password, the
verification step of change-password adds a session row, and the
operation as a whole leaves a success entry in the login-audit log and
stamps the user's last-login timestamp — not the no-op frame the claim
asserts for the verification. -/
theorem c2_counterexample :
    (changePwVerify compareDemo signDemo cfgDemo c2store 50 c2user "pw1" infoDemo).2.sessions.length
        = c2store.sessions.length + 1 ∧
    ((changePasswordRoute compareDemo hashDemo signDemo cfgDemo c2store 50 1 "pw1" "newsecret" infoDemo).2.loginLogs.map
        fun l => (l.success, l.message)) = [(true, msgLoginOk)] ∧
    c2store.loginLogs = [] ∧
    ((changePasswordRoute compareDemo hashDemo signDemo cfgDemo c2store 50 1 "pw1" "newsecret" infoDemo).2.users.map
        fun u => u.lastLoginAt) = [some 50] ∧
    c2user.lastLoginAt = none :=
  ⟨rfl, rfl, rfl, rfl, rfl⟩

/-- Claim C2, amended: change-password verifies the current password by
running the full login flow, which appends a session row and an audit
entry (and stamps last-login); the subsequent steps update the hash and
revoke every session of the caller, including the one the verification
just created, so no session survives the successful operation. -/
theorem c2_amended (compare : String → String → Bool) (hash : String → String)
    (sign : Claims → String) (cfg : JwtExpiresIn) (store : Store) (now : Nat)
    (uid : Nat) (cur newp : String) (info : LoginInfo) (u : User)
    (hcur : cur ≠ "") (hnew : newp ≠ "") (hlen : ¬ newp.length < 6)
    (hid : findUserById store uid = some u)
    (hlogin : findUserByLogin store u.username = some u)
    (hact : u.status = "active")
    (hpw : compare cur u.passwordHash = true) :
    ((changePwVerify compare sign cfg store now u cur info).2.sessions.length
        = store.sessions.length + 1) ∧
    ((changePwVerify compare sign cfg store now u cur info).2.loginLogs.length
        = store.loginLogs.length + 1) ∧
    ((changePasswordRoute compare hash sign cfg store now uid cur newp info).1
        = ChangePwOutcome.success) ∧
    (((changePasswordRoute compare hash sign cfg store now uid cur newp info).2).sessions.filter
        (fun s => s.userId == uid) = []) ∧
    (∃ u', findUserById
        ((changePasswordRoute compare hash sign cfg store now uid cur newp info).2) uid
          = some u' ∧ u'.passwordHash = hash newp) := by
  have hL := login_success_eq compare sign cfg store now u.username cur info u hlogin hact hpw
  have hV : changePwVerify compare sign cfg store now u cur info
      = (Except.ok (userInfoOf u, sign (claimsFor u now cfg)),
         loginSuccessStore sign cfg store now u.username info u) := hL
  have huid : u.id = uid := findUserById_id store uid u hid
  set fu : User := { u with lastLoginAt := some now } with hfu
  set st1 : Store := loginSuccessStore sign cfg store now u.username info u with hst1
  have hst1users : st1.users = store.users.map
      (fun v : User => if v.id = u.id then { v with lastLoginAt := some now } else v) := rfl
  have hfind1 : findUserById st1 uid = some fu := by
    unfold findUserById
    rw [hst1users]
    rw [find?_map_eq (fun v : User => v.id == uid)
        (fun v : User => if v.id = u.id then { v with lastLoginAt := some now } else v)
        (by
          intro v
          by_cases hv : v.id = u.id
          · simp [hv]
          · simp [hv])]
    rw [show store.users.find? (fun v : User => v.id == uid) = some u from hid]
    simp [huid, hfu]
  set u2 : User := applyUpdate hash fu { password := some newp } with hu2
  have hupdeq : updateUser hash st1 uid { password := some newp }
      = (Except.ok u2,
         { st1 with users := st1.users.map fun v => if v.id = uid then u2 else v }) := by
    show updateUserApply hash st1 uid { password := some newp }
        = (Except.ok u2,
           { st1 with users := st1.users.map fun v => if v.id = uid then u2 else v })
    unfold updateUserApply
    rw [hfind1]
  set st2 : Store :=
    { st1 with users := st1.users.map fun v => if v.id = uid then u2 else v } with hst2
  have hroute : changePasswordRoute compare hash sign cfg store now uid cur newp info
      = (ChangePwOutcome.success, logout st2 uid none) := by
    unfold changePasswordRoute
    rw [if_neg (not_or.mpr ⟨hcur, hnew⟩), if_neg hlen]
    simp only [hid]
    simp only [hV]
    simp only [hupdeq]
  refine ⟨?_, ?_, ?_, ?_, ?_⟩
  · rw [hV]
    rw [show ((Except.ok (userInfoOf u, sign (claimsFor u now cfg)) :
        Except String (UserInfo × String)), st1).2 = st1 from rfl]
    rw [hst1]
    simp [loginSuccessStore, saveLoginLog]
  · rw [hV]
    rw [show ((Except.ok (userInfoOf u, sign (claimsFor u now cfg)) :
        Except String (UserInfo × String)), st1).2 = st1 from rfl]
    rw [hst1]
    simp [loginSuccessStore, saveLoginLog]
  · rw [hroute]
  · rw [hroute]
    show (st2.sessions.filter (fun s => s.userId != uid)).filter (fun s => s.userId == uid) = []
    exact filter_userId_ne_then_eq_nil st2.sessions uid
  · refine ⟨u2, ?_, ?_⟩
    · rw [hroute]
      show st2.users.find? (fun v => v.id == uid) = some u2
      rw [hst2]
      show (st1.users.map fun v : User => if v.id = uid then u2 else v).find?
          (fun v : User => v.id == uid) = some u2
      have hid2 : u2.id = uid := by
        rw [hu2]
        simp [applyUpdate, hfu, huid]
      rw [find?_map_eq (fun v : User => v.id == uid)
          (fun v : User => if v.id = uid then u2 else v)
          (by
            intro v
            by_cases hv : v.id = uid
            · simp [hv, hid2]
            · simp [hv])]
      rw [show st1.users.find? (fun v : User => v.id == uid) = some fu from hfind1]
      have hfid : fu.id = uid := by rw [hfu]; simpa using huid
      simp [hfid, huid]
    · rw [hu2]
      rfl

/-- Claim C2, witness: the amended theorem applied to a concrete store
with one active user and the correct current password. -/
theorem c2_amended_witness :
    (changePwVerify compareDemo signDemo cfgDemo c2store 50 c2user "pw1" infoDemo).2.sessions.length
        = c2store.sessions.length + 1 ∧
    (changePasswordRoute compareDemo hashDemo signDemo cfgDemo c2store 50 1 "pw1" "newsecret" infoDemo).1
        = ChangePwOutcome.success := by
  have h := c2_amended compareDemo hashDemo signDemo cfgDemo c2store 50 1 "pw1" "newsecret"
    infoDemo c2user (by decide) (by decide) (by decide) rfl rfl rfl rfl
  exact ⟨h.1, h.2.2.1⟩

/-- Claim C3, counterexample: a wrong password presented against a
blocked account yields the account-disabled failure, not
invalid-credentials — the status check precedes password
verification. -/
theorem c3_counterexample :
    (login compareDemo signDemo cfgDemo c3store 10 "bob" "WRONG" infoDemo).1
        = Except.error msgAccountDisabled ∧
    compareDemo "WRONG" c3user.passwordHash = false ∧
    msgAccountDisabled ≠ msgInvalidCredentials :=
  ⟨rfl, rfl, by decide⟩

/-- Claim C3, amended: login checks account status before the password:
any login resolving to a non-active user fails with AccountDisabled
regardless of the supplied password, and InvalidCredentials is produced
exactly for an unresolved user or for an active user whose password
does not match. -/
theorem c3_amended (compare : String → String → Bool) (sign : Claims → String)
    (cfg : JwtExpiresIn) (store : Store) (now : Nat) (uname pw : String)
    (info : LoginInfo) (u : User)
    (hu : findUserByLogin store uname = some u) :
    (u.status ≠ "active" →
        (login compare sign cfg store now uname pw info).1 = Except.error msgAccountDisabled) ∧
    (u.status = "active" → compare pw u.passwordHash = false →
        (login compare sign cfg store now uname pw info).1 = Except.error msgInvalidCredentials) := by
  constructor
  · intro hs
    rw [login_disabled_eq compare sign cfg store now uname pw info u hu hs]
  · intro hact hpw
    rw [login_wrongpw_eq compare sign cfg store now uname pw info u hu hact hpw]

/-- Claim C3, witness: the amended theorem applied to a blocked account
with a wrong password and to an active account with a wrong
password. -/
theorem c3_amended_witness :
    (login compareDemo signDemo cfgDemo c3store 10 "bob" "WRONG" infoDemo).1
        = Except.error msgAccountDisabled ∧
    (login compareDemo signDemo cfgDemo c2store 10 "alice" "WRONG" infoDemo).1
        = Except.error msgInvalidCredentials :=
  ⟨(c3_amended compareDemo signDemo cfgDemo c3store 10 "bob" "WRONG" infoDemo c3user rfl).1
      (by decide),
   (c3_amended compareDemo signDemo cfgDemo c2store 10 "alice" "WRONG" infoDemo c2user rfl).2
      rfl (by decide)⟩

/-- Claim C4: a failed login against an existing active user with a
wrong password and a failed login against a name resolving to no user
return the identical InvalidCredentials failure, so the caller cannot
tell from the result whether the account exists. -/
theorem c4_confirmed (compare : String → String → Bool) (sign : Claims → String)
    (cfg : JwtExpiresIn) (store : Store) (now : Nat) (un1 pw1 un2 pw2 : String)
    (info1 info2 : LoginInfo) (u : User)
    (h1 : findUserByLogin store un1 = some u)
    (hact : u.status = "active")
    (hmm : compare pw1 u.passwordHash = false)
    (h2 : findUserByLogin store un2 = none) :
    (login compare sign cfg store now un1 pw1 info1).1 = Except.error msgInvalidCredentials ∧
    (login compare sign cfg store now un2 pw2 info2).1 = Except.error msgInvalidCredentials ∧
    (login compare sign cfg store now un1 pw1 info1).1
        = (login compare sign cfg store now un2 pw2 info2).1 := by
  rw [login_wrongpw_eq compare sign cfg store now un1 pw1 info1 u h1 hact hmm,
      login_nouser_eq compare sign cfg store now un2 pw2 info2 h2]
  exact ⟨rfl, rfl, rfl⟩

/-- Claim C4, witness: the theorem applied to a concrete store with one
active user, a wrong password, and an unknown username. -/
theorem c4_witness :
    (login compareDemo signDemo cfgDemo c4store 10 "alice" "wrongpass" infoDemo).1
        = Except.error msgInvalidCredentials ∧
    (login compareDemo signDemo cfgDemo c4store 10 "nonexistent" "x" infoDemo).1
        = Except.error msgInvalidCredentials ∧
    (login compareDemo signDemo cfgDemo c4store 10 "alice" "wrongpass" infoDemo).1
        = (login compareDemo signDemo cfgDemo c4store 10 "nonexistent" "x" infoDemo).1 :=
  c4_confirmed compareDemo signDemo cfgDemo c4store 10 "alice" "wrongpass" "nonexistent" "x"
    infoDemo infoDemo c4user rfl rfl (by decide) rfl

/-- Claim C5, counterexample: with a configured time-to-live of 30
minutes the persisted session row expires 30 hours after issue while
the token claims expire 30 minutes after issue — the stored session and
the claim-encoded expiry disagree. -/
theorem c5_counterexample :
    ((login compareDemo signDemo cfg5 c5store 0 "carol" "pw" infoDemo).2.sessions.map
        fun s => s.expiresAt) = [sessionTtlSeconds cfg5] ∧
    (claimsFor c5user 0 cfg5).exp = tokenTtlSeconds cfg5 ∧
    sessionTtlSeconds cfg5 = 108000 ∧
    tokenTtlSeconds cfg5 = 1800 ∧
    (108000 : Nat) ≠ 1800 :=
  ⟨rfl, rfl, rfl, rfl, by decide⟩

/-- Claim C5, amended: the persisted session expiry is always issue time
plus the numeric part of the configured TTL taken as hours, while the
token encodes the TTL with its declared unit; the two agree when the
configured unit is hours and disagree for any non-zero TTL in another
unit. -/
theorem c5_amended (compare : String → String → Bool) (sign : Claims → String)
    (cfg : JwtExpiresIn) (store : Store) (now : Nat) (uname pw : String)
    (info : LoginInfo) (u : User)
    (hu : findUserByLogin store uname = some u)
    (hact : u.status = "active")
    (hpw : compare pw u.passwordHash = true) :
    ((login compare sign cfg store now uname pw info).2.sessions
        = store.sessions ++
          [⟨u.id, sign (claimsFor u now cfg), now + sessionTtlSeconds cfg,
            info.ipAddress, info.userAgent, info.deviceId⟩]) ∧
    (claimsFor u now cfg).exp = now + tokenTtlSeconds cfg ∧
    sessionTtlSeconds cfg = cfg.value * 3600 ∧
    (cfg.unit = TimeUnit.hours → sessionTtlSeconds cfg = tokenTtlSeconds cfg) ∧
    (cfg.unit ≠ TimeUnit.hours → cfg.value ≠ 0 →
        sessionTtlSeconds cfg ≠ tokenTtlSeconds cfg) := by
  refine ⟨?_, rfl, rfl, ?_, ?_⟩
  · rw [login_success_eq compare sign cfg store now uname pw info u hu hact hpw]
    rfl
  · intro h
    simp [sessionTtlSeconds, tokenTtlSeconds, h, TimeUnit.toSeconds]
  · intro hne hv
    rcases cfg with ⟨v, unit⟩
    simp only [ne_eq] at hv
    cases unit with
    | seconds =>
        simp only [sessionTtlSeconds, tokenTtlSeconds, TimeUnit.toSeconds]
        omega
    | minutes =>
        simp only [sessionTtlSeconds, tokenTtlSeconds, TimeUnit.toSeconds]
        omega
    | hours => exact absurd rfl hne
    | days =>
        simp only [sessionTtlSeconds, tokenTtlSeconds, TimeUnit.toSeconds]
        omega

/-- Claim C5, witness: the amended theorem applied to a concrete login
under a 30-minute configured TTL. -/
theorem c5_amended_witness :
    (login compareDemo signDemo cfg5 c5store 0 "carol" "pw" infoDemo).2.sessions
      = c5store.sessions ++
        [⟨c5user.id, signDemo (claimsFor c5user 0 cfg5), 0 + sessionTtlSeconds cfg5,
          infoDemo.ipAddress, infoDemo.userAgent, infoDemo.deviceId⟩] :=
  (c5_amended compareDemo signDemo cfg5 c5store 0 "carol" "pw" infoDemo c5user rfl rfl rfl).1

/-- Claim C6, counterexample: an admin update that touches only the
nickname of a blocked user (status not supplied) clears the existing
disabled remark, contradicting the claim that such an update leaves the
remark unchanged. -/
theorem c6_counterexample :
    (adminUpdateUser hashDemo c6store "superadmin" 7 c6body).1
        = UpdateOutcome.updated c6expected ∧
    c6body.status = none ∧
    c6user.disabledRemark = some "violated terms" ∧
    c6expected.disabledRemark = none :=
  ⟨rfl, rfl, rfl, rfl⟩

/-- Claim C6, amended: setting status blocked without a remark is
rejected with the validation error; and the disabled remark is cleared
whenever the supplied status differs from the string blocked — which
includes an update that does not supply status at all — no remark is
supplied, and the target currently has a non-empty remark. -/
theorem c6_amended (hash : String → String) (store : Store) (uid : Nat)
    (b : AdminUpdateBody) (u : User)
    (hu : findUserById store uid = some u) :
    (b.status = some "blocked" ∧ falsyStr b.disabledRemark = true →
        adminUpdateUser hash store "superadmin" uid b
          = (UpdateOutcome.badRequest msgBlockNeedsRemark, store)) ∧
    (¬ b.status = some "blocked" → b.disabledRemark = none →
        truthyStr u.disabledRemark = true →
        b.username = none → b.email = none →
        ∃ u' st', adminUpdateUser hash store "superadmin" uid b
            = (UpdateOutcome.updated u', st')
          ∧ u'.disabledRemark = none ∧ u'.id = u.id) := by
  constructor
  · intro hcond
    unfold adminUpdateUser
    rw [if_neg (by decide : ¬ ("superadmin" : String) = "admin")]
    unfold adminUpdateCore
    rw [if_pos hcond]
  · intro hst hdr hrem hbu hbe
    unfold adminUpdateUser
    rw [if_neg (by decide : ¬ ("superadmin" : String) = "admin")]
    unfold adminUpdateCore
    rw [if_neg (fun hc => hst hc.1)]
    rw [if_pos ⟨hst, hdr⟩]
    simp only [hu]
    rw [if_pos hrem]
    unfold adminFinish
    rw [if_neg (by simp [UpdateData.isEmpty])]
    unfold updateUser
    rw [if_neg (by simp [adminBodyData, hbu, hbe, truthyStr])]
    unfold updateUserApply
    simp only [hu]
    refine ⟨applyUpdate hash u { adminBodyData b with disabledRemark := some none },
      _, rfl, ?_, rfl⟩
    simp [applyUpdate]

/-- Claim C6, witness: the amended theorem applied to a blocked user
with a remark, once for the blocked-without-remark rejection and once
for the clearing side effect of a nickname-only update. -/
theorem c6_amended_witness :
    (adminUpdateUser hashDemo c6store "superadmin" 7
        { status := some "blocked", nickname := some "x" }
      = (UpdateOutcome.badRequest msgBlockNeedsRemark, c6store)) ∧
    (∃ u' st', adminUpdateUser hashDemo c6store "superadmin" 7 c6body
        = (UpdateOutcome.updated u', st')
      ∧ u'.disabledRemark = none ∧ u'.id = c6user.id) :=
  ⟨(c6_amended hashDemo c6store 7 { status := some "blocked", nickname := some "x" }
      c6user rfl).1 ⟨rfl, rfl⟩,
   (c6_amended hashDemo c6store 7 c6body c6user rfl).2
      (by decide) rfl rfl rfl rfl⟩

/-- Claim C7: the first registration succeeds; at the model layer the
duplicate registration raises the duplicate-key error naming the
colliding username field and leaves the store unchanged; the route
handler however crashes with a ReferenceError in its catch block (it
serialises an out-of-scope binding) instead of returning that
failure. -/
theorem c7_codebug :
    (registerRoute hashDemo storeEmpty "alice" "alice@x.com" "secret1" none none 1).1
        = RegisterOutcome.created
            { id := 1, username := "alice", email := "alice@x.com",
              passwordHash := hashDemo "secret1", nickname := "alice" } ∧
    createUser hashDemo c7store1 ⟨"alice", "other@x.com", "secret1", none, none⟩ 2
        = (Except.error msgUsernameTaken, c7store1) ∧
    registerRoute hashDemo c7store1 "alice" "other@x.com" "secret1" none none 2
        = (RegisterOutcome.crashReferenceError, c7store1) :=
  ⟨rfl, rfl, rfl⟩

/-- Claim C8: deleteUser on an absent id fails with the not-found error
leaving the store unchanged; on a present id it removes, in one
simultaneous store update, every session and every audit entry of the
user and the user row itself, while preserving all rows owned by other
users. -/
theorem c8_confirmed (store : Store) (uid : Nat) :
    (findUserById store uid = none →
        deleteUser store uid = (Except.error msgUserNotFound, store)) ∧
    (∀ u, findUserById store uid = some u →
        (deleteUser store uid).1 = Except.ok u ∧
        (∀ s ∈ (deleteUser store uid).2.sessions, s.userId ≠ uid) ∧
        (∀ l ∈ (deleteUser store uid).2.loginLogs, l.userId ≠ some uid) ∧
        findUserById (deleteUser store uid).2 uid = none ∧
        (∀ s ∈ store.sessions, s.userId ≠ uid → s ∈ (deleteUser store uid).2.sessions) ∧
        (∀ l ∈ store.loginLogs, l.userId ≠ some uid → l ∈ (deleteUser store uid).2.loginLogs) ∧
        (∀ v ∈ store.users, v.id ≠ uid → v ∈ (deleteUser store uid).2.users)) := by
  constructor
  · intro h
    unfold deleteUser
    rw [h]
  · intro u hu
    have hdel : deleteUser store uid = (Except.ok u,
        { store with
          sessions := store.sessions.filter (fun s => s.userId != uid),
          loginLogs := store.loginLogs.filter (fun l => l.userId != some uid),
          users := store.users.filter (fun v => v.id != uid) }) := by
      unfold deleteUser
      rw [hu]
    rw [hdel]
    refine ⟨rfl, ?_, ?_, ?_, ?_, ?_, ?_⟩
    · intro s hs
      have hm := List.mem_filter.mp hs
      simpa using hm.2
    · intro l hl
      have hm := List.mem_filter.mp hl
      simpa using hm.2
    · unfold findUserById
      apply List.find?_eq_none.mpr
      intro v hv
      have hm := List.mem_filter.mp hv
      simpa using hm.2
    · intro s hs hne
      exact List.mem_filter.mpr ⟨hs, by simpa using hne⟩
    · intro l hl hne
      exact List.mem_filter.mpr ⟨hl, by simpa using hne⟩
    · intro v hv hne
      exact List.mem_filter.mpr ⟨hv, by simpa using hne⟩

/-- Claim C8, witness: the theorem applied to a concrete store holding
the target user, two sessions and an audit entry. -/
theorem c8_witness :
    (deleteUser c8store 1).1 = Except.ok c8user ∧
    findUserById (deleteUser c8store 1).2 1 = none := by
  have h := (c8_confirmed c8store 1).2 c8user rfl
  exact ⟨h.1, h.2.2.2.1⟩

/-- Claim C9: whenever the login model fails — unknown user, wrong
password or disabled account all surface as an error — the login route
answers transport status 200 with envelope code 401 carrying the error
message. -/
theorem c9_confirmed (compare : String → String → Bool) (sign : Claims → String)
    (cfg : JwtExpiresIn) (store : Store) (now : Nat) (uname pw : String)
    (info : LoginInfo) (msg : String)
    (hun : uname ≠ "") (hpw : pw ≠ "")
    (hfail : (login compare sign cfg store now uname pw info).1 = Except.error msg) :
    (loginRoute compare sign cfg store now uname pw info).1
        = LoginRouteResult.fail 200 401 msg := by
  unfold loginRoute
  rw [if_neg (not_or.mpr ⟨hun, hpw⟩)]
  rcases hres : login compare sign cfg store now uname pw info with ⟨r, st⟩
  rw [hres] at hfail
  cases r with
  | ok v => simp at hfail
  | error m =>
      have hm : m = msg := by simpa using hfail
      subst hm
      rfl

/-- Claim C9, witness: the theorem applied to a login against an empty
store. -/
theorem c9_witness :
    (loginRoute compareDemo signDemo cfgDemo storeEmpty 5 "ghost" "pw" infoDemo).1
        = LoginRouteResult.fail 200 401 msgInvalidCredentials :=
  c9_confirmed compareDemo signDemo cfgDemo storeEmpty 5 "ghost" "pw" infoDemo
    msgInvalidCredentials (by decide) (by decide) rfl

/-- Claim C10: a successful token validation requires a stored session
row whose token equals the presented token and whose owning userId
equals the id decoded from the claims, and the returned identity
carries exactly that id; and a successful login persists its session
row with the authenticated user's own id, the same id the signed claims
carry — so a session created for one user never authenticates a request
as a different user. -/
theorem c10_confirmed (store : Store) (now : Nat) (token : String) (uid : Nat)
    (ident : UserInfo) (compare : String → String → Bool) (sign : Claims → String)
    (cfg : JwtExpiresIn) (uname pw : String) (info : LoginInfo) (u : User) :
    (authCheck store now token uid = AuthResult.ok ident →
        ident.id = uid ∧
        ∃ s ∈ store.sessions, s.token = token ∧ s.userId = uid ∧ now < s.expiresAt) ∧
    (findUserByLogin store uname = some u → u.status = "active" →
        compare pw u.passwordHash = true →
        ∃ sess, (login compare sign cfg store now uname pw info).2.sessions
            = store.sessions ++ [sess]
          ∧ sess.userId = u.id
          ∧ sess.token = sign (claimsFor u now cfg)
          ∧ (claimsFor u now cfg).userId = u.id) := by
  constructor
  · intro h
    unfold authCheck at h
    split at h
    · simp at h
    · rename_i u0 hf
      split at h
      · simp at h
      · rename_i hstat
        split at h
        · simp at h
        · rename_i s hq
          injection h with hinj
          have hident : ident = userInfoOf u0 := hinj.symm
          have hu0 : u0.id = uid := findUserById_id store uid u0 hf
          have hq' : store.sessions.find?
              (fun s => s.userId == u0.id && s.token == token && decide (now < s.expiresAt))
                = some s := hq
          have hsmem := List.mem_of_find?_eq_some hq'
          have hsp := List.find?_some hq'
          simp only [Bool.and_eq_true, beq_iff_eq, decide_eq_true_eq] at hsp
          refine ⟨?_, s, hsmem, ?_, ?_, ?_⟩
          · rw [hident]
            show u0.id = uid
            exact hu0
          · exact hsp.1.2
          · rw [hsp.1.1, hu0]
          · exact hsp.2
  · intro hu hact hpw
    rw [login_success_eq compare sign cfg store now uname pw info u hu hact hpw]
    exact ⟨⟨u.id, sign (claimsFor u now cfg), now + sessionTtlSeconds cfg,
        info.ipAddress, info.userAgent, info.deviceId⟩, rfl, rfl, rfl, rfl⟩

/-- Claim C10, witness: the validation half applied to a concrete store
with one active user and one matching session. -/
theorem c10_witness :
    (userInfoOf c10user).id = 1 ∧
    ∃ s ∈ c10store.sessions, s.token = "tokA" ∧ s.userId = 1 ∧ 100 < s.expiresAt :=
  (c10_confirmed c10store 100 "tokA" 1 (userInfoOf c10user) compareDemo signDemo cfgDemo
    "x" "y" infoDemo c10user).1 rfl

end XiaoHang
